import Mathlib

/-!
Shallow embedding of the dual-chatbot language-learning engine
(`src/chatbot.py`, plus the configuration tables of `src/app.py`).

The generation capability (LangChain `ConversationChain.predict`,
`LLMChain.predict`) is modelled as caller-supplied oracle functions; all
other control flow is transcribed from the source.  Python `KeyError`
exceptions are modelled by the inductive type `Err`, with one constructor
per raise site so that distinct failure sites stay distinguishable.
Python in-place mutation of the caller's `role_dict` argument
(chatbot.py lines 236-238) is modelled by explicit state passing: the
constructor returns the mutated dictionary next to the new session state.
-/

/-- Errors of the engine.  Every constructor corresponds to one Python
raise site or fallible dict lookup in `src/chatbot.py`. -/
inductive Err where
  /-- chatbot.py line 47: raise KeyError("Currently unsupported chat model type!") -/
  | keyErrorChatModel : Err
  /-- chatbot.py line 121: KeyError raised by the lookup
  exchange_counts_dict[session_length][learning_mode]; carries the missing key. -/
  | keyErrorExchangeCounts (key : String) : Err
  /-- chatbot.py line 146: raise KeyError("Currently unsupported proficiency level!") -/
  | keyErrorProficiency : Err
  /-- chatbot.py line 178: raise KeyError("Currently unsupported learning mode!") -/
  | keyErrorLearningMode : Err
  /-- chatbot.py line 175: KeyError raised by the lookup
  argument_num_dict[proficiency_level]; carries the missing key. -/
  | keyErrorArgumentNum (key : String) : Err
  /-- chatbot.py lines 153-154: KeyError raised by role["action"] when the
  role dictionary has no "action" entry. -/
  | keyErrorRoleAction : Err
  /-- chatbot.py line 325: raise KeyError("Currently unsupported translation model type!") -/
  | keyErrorTranslationModel : Err
  deriving Repr, DecidableEq

/-- One `Chatbot` instance (chatbot.py lines 24-50).  The LangChain llm and
memory objects carry no decidable engine state beyond the engine tag; the
per-bot conversation memory is held by the session state (`mem1`/`mem2`). -/
structure Chatbot where
  engine : String
  deriving Repr, DecidableEq

/-- Chatbot.__init__ (chatbot.py lines 24-50): accepts exactly the engine
"OpenAI", raises KeyError otherwise. -/
def Chatbot.create (engine : String) : Except Err Chatbot :=
  if engine = "OpenAI" then .ok { engine := engine }
  else .error .keyErrorChatModel

/-- One entry of the caller's `role_dict` (chatbot.py lines 206-216):
a display name, an optional "action" entry (present in Conversation mode,
absent in Debate mode), and an optional "chatbot" entry added in place by
DualChatbot.__init__ (chatbot.py line 238). -/
structure Role where
  name : String
  action : Option String
  chatbot : Option Chatbot
  deriving Repr, DecidableEq

/-- The caller's `role_dict` with its two fixed keys "role1" and "role2". -/
structure RoleDict where
  role1 : Role
  role2 : Role
  deriving Repr, DecidableEq

/-- chatbot.py lines 117-121: the fixed table
exchange_counts_dict = \x7b Short: \x7bConversation: 8, Debate: 4\x7d, Long: \x7bConversation: 16, Debate: 8\x7d \x7d
indexed first by session_length, then by learning_mode; a missing key
raises KeyError (carrying that key). -/
def exchange_counts_dict (session_length learning_mode : String) : Except Err Nat :=
  if session_length = "Short" then
    if learning_mode = "Conversation" then .ok 8
    else if learning_mode = "Debate" then .ok 4
    else .error (.keyErrorExchangeCounts learning_mode)
  else if session_length = "Long" then
    if learning_mode = "Conversation" then .ok 16
    else if learning_mode = "Debate" then .ok 8
    else .error (.keyErrorExchangeCounts learning_mode)
  else .error (.keyErrorExchangeCounts session_length)

/-- chatbot.py lines 124-128: the fixed table
argument_num_dict = \x7bBeginner: 4, Intermediate: 6, Advanced: 8\x7d,
as a lookup (none models a KeyError on access). -/
def argument_num_dict (proficiency_level : String) : Option Nat :=
  if proficiency_level = "Beginner" then some 4
  else if proficiency_level = "Intermediate" then some 6
  else if proficiency_level = "Advanced" then some 8
  else none

/-- chatbot.py lines 130-146: the language-complexity branch on
proficiency_level; the else branch raises KeyError. -/
def lang_requirement (proficiency_level : String) : Except Err String :=
  if proficiency_level = "Beginner" then
    .ok "use as basic and simple vocabulary and\n            sentence structures as possible. Must avoid idioms, slang, \n            and complex grammatical constructs."
  else if proficiency_level = "Intermediate" then
    .ok "use a wider range of vocabulary and a variety of sentence structures. \n            You can include some idioms and colloquial expressions, \n            but avoid highly technical language or complex literary expressions."
  else if proficiency_level = "Advanced" then
    .ok "use sophisticated vocabulary, complex sentence structures, idioms, \n            colloquial expressions, and technical language where appropriate."
  else .error .keyErrorProficiency

/-- chatbot.py lines 151-161: the Conversation-mode prompt f-string,
with the f-string holes as parameters. -/
def conversation_prompt (scenario roleName roleAction oppoName oppoAction language learning_mode proficiency_level lr : String) (exchange_counts : Nat) : String :=
  "You are an AI that is good at role-playing. \n            You are simulating a typical conversation happened " ++ scenario ++ ". \n            In this scenario, you are playing as a " ++ roleName ++ " " ++ roleAction ++ ", speaking to a \n            " ++ oppoName ++ " " ++ oppoAction ++ ".\n            Your conversation should only be conducted in " ++ language ++ ". Do not translate.\n            This simulated " ++ learning_mode ++ " is designed for " ++ language ++ " language learners to learn real-life \n            conversations in " ++ language ++ ". You should assume the learners\x27 proficiency level in \n            " ++ language ++ " is " ++ proficiency_level ++ ". Therefore, you should " ++ lr ++ ".\n            You should finish the conversation within " ++ toString exchange_counts ++ " exchanges with the " ++ oppoName ++ ". \n            Make your conversation with " ++ oppoName ++ " natural and typical in the considered scenario in \n            " ++ language ++ " cultural."

/-- chatbot.py lines 164-175: the Debate-mode prompt f-string,
with the f-string holes as parameters. -/
def debate_prompt (scenario roleName oppoName language proficiency_level lr : String) (exchange_counts argument_num : Nat) : String :=
  "You are an AI that is good at debating. \n            You are now engaged in a debate with the following topic: " ++ scenario ++ ". \n            In this debate, you are taking on the role of a " ++ roleName ++ ". \n            Always remember your stances in the debate.\n            Your debate should only be conducted in " ++ language ++ ". Do not translate.\n            This simulated debate is designed for " ++ language ++ " language learners to \n            learn " ++ language ++ ". You should assume the learners\x27 proficiency level in " ++ language ++ " \n            is " ++ proficiency_level ++ ". Therefore, you should " ++ lr ++ ".\n            You will exchange opinions with another AI (who plays the " ++ oppoName ++ " role) \n            " ++ toString exchange_counts ++ " times. \n            Everytime you speak, you can only speak no more than \n            " ++ toString argument_num ++ " sentences."

/-- chatbot.py lines 181-187: the turn-order clause appended to the prompt. -/
def starter_clause (starter : Bool) (learning_mode oppoName : String) : String :=
  if starter then "You are leading the " ++ learning_mode ++ ". \n"
  else "Wait for the " ++ oppoName ++ "\x27s statement."

/-- Chatbot._specify_system_message (chatbot.py lines 102-189), with the
`self` fields set by `instruct` (lines 80-87) passed as arguments in the
order `instruct` receives them.  Control flow follows the source: the
exchange-count lookup (line 121) runs first, then the language-complexity
branch (lines 130-146), then the mode branch (lines 150-178, where the
Conversation branch reads role["action"] and the Debate branch looks up
argument_num_dict[proficiency_level]), and finally the turn-order clause is
appended (lines 181-187). -/
def specify_system_message (role oppo : Role) (language scenario session_length proficiency_level learning_mode : String) (starter : Bool) : Except Err String :=
  match exchange_counts_dict session_length learning_mode with
  | .error e => .error e
  | .ok exchange_counts =>
    match lang_requirement proficiency_level with
    | .error e => .error e
    | .ok lr =>
      if learning_mode = "Conversation" then
        match role.action with
        | none => .error .keyErrorRoleAction
        | some roleAction =>
          match oppo.action with
          | none => .error .keyErrorRoleAction
          | some oppoAction =>
            .ok (conversation_prompt scenario role.name roleAction oppo.name oppoAction language learning_mode proficiency_level lr exchange_counts
                  ++ starter_clause starter learning_mode oppo.name)
      else if learning_mode = "Debate" then
        match argument_num_dict proficiency_level with
        | none => .error (.keyErrorArgumentNum proficiency_level)
        | some argument_num =>
          .ok (debate_prompt scenario role.name oppo.name language proficiency_level lr exchange_counts argument_num
                ++ starter_clause starter learning_mode oppo.name)
      else .error .keyErrorLearningMode

/-- One entry of `self.conversation_history` (chatbot.py lines 277, 284):
a dict \x7b"bot": name, "text": utterance\x7d. -/
structure HistEntry where
  bot : String
  text : String
  deriving Repr, DecidableEq

/-- The state of a DualChatbot instance (chatbot.py lines 194-260, 404-412).
`instr1`/`instr2` are the two compiled system messages; `mem1`/`mem2` are the
two bots\x27 LangChain conversation memories as (input, output) pairs. -/
structure DualState where
  engine : String
  proficiency_level : String
  language : String
  session_length : String
  role1 : Role
  role2 : Role
  instr1 : String
  instr2 : String
  conversation_history : List HistEntry
  input1 : String
  input2 : String
  mem1 : List (String × String)
  mem2 : List (String × String)
  deriving Repr, DecidableEq

/-- DualChatbot._reset_conversation_history (chatbot.py lines 404-412). -/
def reset_conversation_history (s : DualState) : DualState :=
  { s with conversation_history := [], input1 := "Start the conversation.", input2 := "" }

/-- The method names the DualChatbot class defines (chatbot.py lines 194-412). -/
def DualChatbot.methods : List String :=
  ["__init__", "step", "translate", "summary", "_reset_conversation_history"]

/-- DualChatbot.__init__ (chatbot.py lines 198-260).  The Python code first
creates one Chatbot per role and stores it in place under the "chatbot" key
of the caller's own role_dict (lines 236-238, where self.chatbots is the
same object as role_dict); the in-place mutation is modelled by returning
the updated RoleDict alongside the new state.  It then compiles role1's
instruction with starter=True and role2's with starter=False, each with the
other entry as oppo_role (lines 241-253), and finally resets the
conversation history (line 260). -/
def DualChatbot.init (engine : String) (role_dict : RoleDict) (language scenario proficiency_level learning_mode session_length : String) : Except Err (DualState × RoleDict) :=
  match Chatbot.create engine with
  | .error e => .error e
  | .ok cb1 =>
    match Chatbot.create engine with
    | .error e => .error e
    | .ok cb2 =>
      let chatbots : RoleDict :=
        { role1 := { role_dict.role1 with chatbot := some cb1 },
          role2 := { role_dict.role2 with chatbot := some cb2 } }
      match specify_system_message chatbots.role1 chatbots.role2 language scenario session_length proficiency_level learning_mode true with
      | .error e => .error e
      | .ok instr1 =>
        match specify_system_message chatbots.role2 chatbots.role1 language scenario session_length proficiency_level learning_mode false with
        | .error e => .error e
        | .ok instr2 =>
          .ok (reset_conversation_history
                { engine := engine, proficiency_level := proficiency_level,
                  language := language, session_length := session_length,
                  role1 := chatbots.role1, role2 := chatbots.role2,
                  instr1 := instr1, instr2 := instr2,
                  conversation_history := [], input1 := "", input2 := "",
                  mem1 := [], mem2 := [] },
               chatbots)

/-- DualChatbot.translate (chatbot.py lines 297-344).  `tr` is the
generation oracle behind the translator chain; the returned Nat counts the
calls made to it.  If language is "English" the message comes back prefixed
with "Translation: " and no oracle call is made; otherwise one LLMChain
predict call is made (engine "OpenAI" only, else KeyError). -/
def DualState.translate (s : DualState) (tr : String → String) (message : String) : Except Err (String × Nat) :=
  if s.language = "English" then .ok ("Translation: " ++ message, 0)
  else if s.engine = "OpenAI" then .ok (tr message, 1)
  else .error .keyErrorTranslationModel

/-- The observable record of one DualChatbot.step call: the input each
predict call received, each bot\x27s utterance, and the two translations
(the four returned values of chatbot.py line 293 plus the two inputs). -/
structure StepRecord where
  in1 : String
  out1 : String
  in2 : String
  out2 : String
  translate1 : String
  translate2 : String
  deriving Repr, DecidableEq

/-- DualChatbot.step (chatbot.py lines 264-293).  `f1`/`f2` are the two
bots\x27 generation oracles (ConversationChain.predict as a function of the
bot\x27s accumulated memory and the new input; predict also appends the
(input, output) pair to that bot\x27s memory); `tr` is the translation
oracle.  Chatbot1 speaks on self.input1, its output is appended to
conversation_history and becomes self.input2; chatbot2 speaks on that, its
output is appended and becomes self.input1 for the next round; then both
outputs are translated. -/
def DualChatbot.step (f1 f2 : List (String × String) → String → String) (tr : String → String) (s : DualState) : Except Err (DualState × StepRecord) :=
  let out1 := f1 s.mem1 s.input1
  let hist1 := s.conversation_history ++ [{ bot := s.role1.name, text := out1 }]
  let input2 := out1
  let out2 := f2 s.mem2 input2
  let hist2 := hist1 ++ [{ bot := s.role2.name, text := out2 }]
  let input1 := out2
  let s1 : DualState :=
    { s with conversation_history := hist2, input1 := input1, input2 := input2,
             mem1 := s.mem1 ++ [(s.input1, out1)], mem2 := s.mem2 ++ [(input2, out2)] }
  match s1.translate tr out1 with
  | .error e => .error e
  | .ok (t1, _) =>
    match s1.translate tr out2 with
    | .error e => .error e
    | .ok (t2, _) =>
      .ok (s1, { in1 := s.input1, out1 := out1, in2 := input2, out2 := out2,
                 translate1 := t1, translate2 := t2 })

/-- The caller's stepping loop (app.py lines 174-175): n successive step()
calls, collecting the record of each round in order. -/
def runSteps (f1 f2 : List (String × String) → String → String) (tr : String → String) : DualState → Nat → Except Err (DualState × List StepRecord)
  | s, 0 => .ok (s, [])
  | s, n + 1 =>
    match DualChatbot.step f1 f2 tr s with
    | .error e => .error e
    | .ok (s1, r) =>
      match runSteps f1 f2 tr s1 n with
      | .error e => .error e
      | .ok (s2, rs) => .ok (s2, r :: rs)

namespace App

/-- app.py lines 17-20: the fixed table MAX_EXCHANGE_COUNTS used by the
caller as its step bound (app.py line 174). -/
def MAX_EXCHANGE_COUNTS (session_length learning_mode : String) : Option Nat :=
  if session_length = "Short" then
    if learning_mode = "Conversation" then some 8
    else if learning_mode = "Debate" then some 4
    else none
  else if session_length = "Long" then
    if learning_mode = "Conversation" then some 16
    else if learning_mode = "Debate" then some 8
    else none
  else none

end App

/-! ## Sample data for concrete instantiations -/

/-- Sample role1 entry, following the docstring example (chatbot.py lines 208-211). -/
def sampleRole1 : Role :=
  { name := "Customer", action := some "ordering food", chatbot := none }

/-- Sample role2 entry, following the docstring example (chatbot.py lines 208-211). -/
def sampleRole2 : Role :=
  { name := "Waitstaff", action := some "taking the order", chatbot := none }

/-- Sample caller-side role_dict. -/
def sampleRoleDict : RoleDict :=
  { role1 := sampleRole1, role2 := sampleRole2 }

/-- Sample session state of an English Short Conversation session. -/
def sampleState : DualState :=
  { engine := "OpenAI", proficiency_level := "Beginner", language := "English",
    session_length := "Short", role1 := sampleRole1, role2 := sampleRole2,
    instr1 := "", instr2 := "", conversation_history := [],
    input1 := "Start the conversation.", input2 := "", mem1 := [], mem2 := [] }

/-- Sample generation oracle for role1. -/
def oracle1 : List (String × String) → String → String :=
  fun _ _ => "Hello, I would like to order some food."

/-- Sample generation oracle for role2. -/
def oracle2 : List (String × String) → String → String :=
  fun _ _ => "Of course, what would you like?"

/-- Sample translation oracle. -/
def oracleT : String → String :=
  fun m => "In English: " ++ m

/-- Discriminator: is this error the KeyError of the argument_num_dict
lookup (chatbot.py line 175)? -/
def Err.isArgumentNumKeyError : Err → Bool
  | .keyErrorArgumentNum _ => true
  | _ => false

/-- Sample argument tuple for the instruction builder. -/
def sampleArgs : Role × Role × String × String × String × String × String × Bool :=
  (sampleRole1, sampleRole2, "English", "at a restaurant", "Short", "Beginner", "Conversation", true)

/-! ## Helper lemmas -/

/-- Every error of the exchange-count lookup is a KeyError of that dict. -/
lemma exchange_counts_dict_error (sl lm : String) (e : Err) (h : exchange_counts_dict sl lm = .error e) :
    ∃ k, e = .keyErrorExchangeCounts k := by
  unfold exchange_counts_dict at h
  split_ifs at h <;> simp_all <;> exact ⟨_, h.symm⟩

/-- The only error of the language-complexity branch is the proficiency KeyError. -/
lemma lang_requirement_error (pl : String) (e : Err) (h : lang_requirement pl = .error e) :
    e = .keyErrorProficiency := by
  unfold lang_requirement at h
  split_ifs at h <;> simp_all

/-- A proficiency level the language-complexity branch accepts is a key of
argument_num_dict. -/
lemma lang_requirement_ok_argnum (pl lr : String) (h : lang_requirement pl = .ok lr) :
    (argument_num_dict pl).isSome := by
  unfold lang_requirement at h
  unfold argument_num_dict
  split_ifs at h <;> simp_all

/-- Every successfully compiled instruction ends with the turn-order clause. -/
lemma specify_ok_suffix (role oppo : Role) (language scenario sl pl lm : String) (starter : Bool) (t : String)
    (h : specify_system_message role oppo language scenario sl pl lm starter = .ok t) :
    ∃ p, t = p ++ starter_clause starter lm oppo.name := by
  unfold specify_system_message at h
  cases hx : exchange_counts_dict sl lm with
  | error e => simp [hx] at h
  | ok n =>
    simp only [hx] at h
    cases hl : lang_requirement pl with
    | error e => simp [hl] at h
    | ok lr =>
      simp only [hl] at h
      split_ifs at h
      · cases hra : role.action with
        | none => simp [hra] at h
        | some ra =>
          cases hoa : oppo.action with
          | none => simp [hra, hoa] at h
          | some oa =>
            simp only [hra, hoa, Except.ok.injEq] at h
            exact ⟨_, h.symm⟩
      · cases han : argument_num_dict pl with
        | none => simp [han] at h
        | some m =>
          simp only [han, Except.ok.injEq] at h
          exact ⟨_, h.symm⟩

/-- An out-of-enum learning mode, proficiency level or session length makes
the instruction builder fail. -/
lemma specify_invalid (role oppo : Role) (language scenario sl pl lm : String) (starter : Bool)
    (h : (lm ≠ "Conversation" ∧ lm ≠ "Debate")
      ∨ (pl ≠ "Beginner" ∧ pl ≠ "Intermediate" ∧ pl ≠ "Advanced")
      ∨ (sl ≠ "Short" ∧ sl ≠ "Long")) :
    ∃ e, specify_system_message role oppo language scenario sl pl lm starter = .error e := by
  by_cases hsl : sl = "Short" ∨ sl = "Long"
  · by_cases hlm : lm = "Conversation" ∨ lm = "Debate"
    · have hpl : pl ≠ "Beginner" ∧ pl ≠ "Intermediate" ∧ pl ≠ "Advanced" := by
        rcases h with h | h | h
        · rcases hlm with h1 | h1 <;> simp [h1] at h
        · exact h
        · rcases hsl with h1 | h1 <;> simp [h1] at h
      refine ⟨Err.keyErrorProficiency, ?_⟩
      rcases hsl with h1 | h1 <;> subst h1 <;> rcases hlm with h2 | h2 <;> subst h2 <;>
        simp [specify_system_message, exchange_counts_dict, lang_requirement,
              hpl.1, hpl.2.1, hpl.2.2]
    · push_neg at hlm
      rcases hsl with h1 | h1 <;> subst h1 <;>
        exact ⟨Err.keyErrorExchangeCounts lm,
          by simp [specify_system_message, exchange_counts_dict, hlm.1, hlm.2]⟩
  · push_neg at hsl
    exact ⟨Err.keyErrorExchangeCounts sl,
      by simp [specify_system_message, exchange_counts_dict, hsl.1, hsl.2]⟩

/-- With in-enum configuration values (and, in Conversation mode, role
entries that carry an action) the instruction builder succeeds. -/
lemma specify_valid (role oppo : Role) (language scenario sl pl lm : String) (starter : Bool)
    (hlm : lm = "Conversation" ∨ lm = "Debate")
    (hpl : pl = "Beginner" ∨ pl = "Intermediate" ∨ pl = "Advanced")
    (hsl : sl = "Short" ∨ sl = "Long")
    (hact : lm = "Conversation" → role.action.isSome ∧ oppo.action.isSome) :
    ∃ t, specify_system_message role oppo language scenario sl pl lm starter = .ok t := by
  rcases hlm with h2 | h2 <;> subst h2
  · obtain ⟨ha, hb⟩ := hact rfl
    obtain ⟨ra, hra⟩ := Option.isSome_iff_exists.mp ha
    obtain ⟨oa, hoa⟩ := Option.isSome_iff_exists.mp hb
    rcases hsl with h1 | h1 <;> subst h1 <;> rcases hpl with h3 | h3 | h3 <;> subst h3 <;>
      simp [specify_system_message, exchange_counts_dict, lang_requirement,
            argument_num_dict, hra, hoa]
  · rcases hsl with h1 | h1 <;> subst h1 <;> rcases hpl with h3 | h3 | h3 <;> subst h3 <;>
      simp [specify_system_message, exchange_counts_dict, lang_requirement, argument_num_dict]

/-- Everything DualChatbot.__init__ establishes on success: the reset carry
inputs and empty transcript, the mutated role dictionary (both entries now
carrying a chatbot), the session holding that same dictionary, and the two
instructions compiled with starter=true for role1 and starter=false for
role2, each with the other as opponent. -/
lemma init_ok_fields (engine : String) (rd : RoleDict) (language scenario pl lm sl : String)
    (st : DualState) (rd2 : RoleDict)
    (h : DualChatbot.init engine rd language scenario pl lm sl = .ok (st, rd2)) :
    st.input1 = "Start the conversation." ∧ st.conversation_history = [] ∧ st.input2 = ""
    ∧ st.engine = engine ∧ st.role1 = rd2.role1 ∧ st.role2 = rd2.role2
    ∧ rd2.role1.chatbot = some { engine := engine } ∧ rd2.role2.chatbot = some { engine := engine }
    ∧ rd2.role1.name = rd.role1.name ∧ rd2.role2.name = rd.role2.name
    ∧ rd2.role1.action = rd.role1.action ∧ rd2.role2.action = rd.role2.action
    ∧ Except.ok st.instr1 = specify_system_message rd2.role1 rd2.role2 language scenario sl pl lm true
    ∧ Except.ok st.instr2 = specify_system_message rd2.role2 rd2.role1 language scenario sl pl lm false := by
  unfold DualChatbot.init at h
  cases hc : Chatbot.create engine with
  | error e => simp [hc] at h
  | ok cb =>
    have hcb : cb = { engine := engine } := by
      unfold Chatbot.create at hc
      split_ifs at hc <;> simp_all
    subst hcb
    simp only [hc] at h
    cases h1 : specify_system_message { rd.role1 with chatbot := some { engine := engine } }
        { rd.role2 with chatbot := some { engine := engine } } language scenario sl pl lm true with
    | error e => simp [h1] at h
    | ok i1 =>
      simp only [h1] at h
      cases h2 : specify_system_message { rd.role2 with chatbot := some { engine := engine } }
          { rd.role1 with chatbot := some { engine := engine } } language scenario sl pl lm false with
      | error e => simp [h2] at h
      | ok i2 =>
        simp only [h2, Except.ok.injEq, Prod.mk.injEq] at h
        obtain ⟨hst, hrd⟩ := h
        subst hst
        subst hrd
        refine ⟨rfl, rfl, rfl, rfl, rfl, rfl, rfl, rfl, rfl, rfl, rfl, rfl, ?_, ?_⟩
        · exact h1.symm
        · exact h2.symm

/-- Everything DualChatbot.step establishes on success: the record holds the
inputs actually passed (role1 got the carried input1, role2 got role1's
fresh utterance), the new carry inputs, and the transcript extended by the
two new entries in order. -/
lemma step_ok_spec (f1 f2 : List (String × String) → String → String) (tr : String → String)
    (s s1 : DualState) (r : StepRecord)
    (h : DualChatbot.step f1 f2 tr s = .ok (s1, r)) :
    r.in1 = s.input1 ∧ r.out1 = f1 s.mem1 s.input1 ∧ r.in2 = r.out1 ∧ r.out2 = f2 s.mem2 r.in2
    ∧ s1.input1 = r.out2 ∧ s1.input2 = r.in2
    ∧ s1.conversation_history = s.conversation_history
        ++ [{ bot := s.role1.name, text := r.out1 }, { bot := s.role2.name, text := r.out2 }]
    ∧ s1.engine = s.engine ∧ s1.language = s.language
    ∧ s1.role1 = s.role1 ∧ s1.role2 = s.role2
    ∧ s1.mem1 = s.mem1 ++ [(r.in1, r.out1)] ∧ s1.mem2 = s.mem2 ++ [(r.in2, r.out2)] := by
  unfold DualChatbot.step at h
  dsimp only at h
  split at h
  · simp at h
  · split at h
    · simp at h
    · simp only [Except.ok.injEq, Prod.mk.injEq] at h
      obtain ⟨hs1, hr⟩ := h
      subst hs1
      subst hr
      simp

/-- On a session whose engine is "OpenAI", step never fails: both translation
calls succeed whatever the language. -/
lemma step_ok_of_engine (f1 f2 : List (String × String) → String → String) (tr : String → String)
    (s : DualState) (hs : s.engine = "OpenAI") :
    ∃ s1 r, DualChatbot.step f1 f2 tr s = .ok (s1, r) := by
  unfold DualChatbot.step
  dsimp only
  by_cases hl : s.language = "English" <;>
    simp [DualState.translate, hl, hs]

/-- The trace invariants of any successful run of n step() calls from state
s: within each round role2's input is role1's utterance, across rounds
role1's input is role2's previous utterance, and the first round's role1
input is the carry input of s. -/
lemma runSteps_trace (f1 f2 : List (String × String) → String → String) (tr : String → String) :
    ∀ (n : Nat) (s s2 : DualState) (rs : List StepRecord),
      runSteps f1 f2 tr s n = .ok (s2, rs) →
      (∀ i r, rs.get? i = some r → r.in2 = r.out1)
    ∧ (∀ i r r2, rs.get? i = some r → rs.get? (i + 1) = some r2 → r2.in1 = r.out2)
    ∧ (∀ r, rs.get? 0 = some r → r.in1 = s.input1) := by
  intro n
  induction n with
  | zero =>
    intro s s2 rs h
    simp only [runSteps, Except.ok.injEq, Prod.mk.injEq] at h
    obtain ⟨-, hrs⟩ := h
    subst hrs
    simp
  | succ n ih =>
    intro s s2 rs h
    unfold runSteps at h
    cases hstep : DualChatbot.step f1 f2 tr s with
    | error e => simp [hstep] at h
    | ok p =>
      obtain ⟨s1, r⟩ := p
      simp only [hstep] at h
      cases hrun : runSteps f1 f2 tr s1 n with
      | error e => simp [hrun] at h
      | ok q =>
        obtain ⟨s3, rs1⟩ := q
        simp only [hrun, Except.ok.injEq, Prod.mk.injEq] at h
        obtain ⟨-, hrs⟩ := h
        subst hrs
        obtain ⟨A, B, C⟩ := ih s1 s3 rs1 hrun
        have spec := step_ok_spec f1 f2 tr s s1 r hstep
        refine ⟨?_, ?_, ?_⟩
        · intro i r2 hi
          cases i with
          | zero =>
            simp only [List.get?_cons_zero, Option.some.injEq] at hi
            subst hi
            exact spec.2.2.1
          | succ j =>
            simp only [List.get?_cons_succ] at hi
            exact A j r2 hi
        · intro i ra rb ha hb
          cases i with
          | zero =>
            simp only [List.get?_cons_zero, Option.some.injEq] at ha
            simp only [List.get?_cons_succ] at hb
            subst ha
            have := C rb hb
            rw [this, spec.2.2.2.2.1]
          | succ j =>
            simp only [List.get?_cons_succ] at ha hb
            exact B j ra rb ha hb
        · intro ra hra
          simp only [List.get?_cons_zero, Option.some.injEq] at hra
          subst hra
          exact spec.1

/-! ## Claim theorems -/

/-- Claim C1: strict alternation.  For every session produced by the
constructor and every successful run of n step() calls: in every round the
input passed to role2's predict call equals role1's utterance of that
round; the input passed to role1's call in round i+1 equals role2's
utterance of round i; and in the first round role1's input is the fixed
bootstrap string "Start the conversation." set at construction. -/
theorem strict_alternation (engine : String) (rd : RoleDict) (language scenario pl lm sl : String)
    (f1 f2 : List (String × String) → String → String) (tr : String → String) (n : Nat) :
    match DualChatbot.init engine rd language scenario pl lm sl with
    | .error _ => True
    | .ok (st, _) =>
      match runSteps f1 f2 tr st n with
      | .error _ => True
      | .ok (_, rs) =>
          (∀ i r, rs.get? i = some r → r.in2 = r.out1)
        ∧ (∀ i r r2, rs.get? i = some r → rs.get? (i + 1) = some r2 → r2.in1 = r.out2)
        ∧ (∀ r, rs.get? 0 = some r → r.in1 = "Start the conversation.") := by
  cases hinit : DualChatbot.init engine rd language scenario pl lm sl with
  | error e => trivial
  | ok p =>
    obtain ⟨st, rd2⟩ := p
    dsimp only
    cases hrun : runSteps f1 f2 tr st n with
    | error e => trivial
    | ok q =>
      obtain ⟨s2, rs⟩ := q
      dsimp only
      have T := runSteps_trace f1 f2 tr n st s2 rs hrun
      have hi : st.input1 = "Start the conversation." :=
        (init_ok_fields engine rd language scenario pl lm sl st rd2 hinit).1
      exact ⟨T.1, T.2.1, fun r hr => (T.2.2 r hr).trans hi⟩

/-- Claim C2: the exchange-count lookup of the instruction builder matches
the fixed table on all four (sessionLength, learningMode) pairs, the
caller's step-bound table MAX_EXCHANGE_COUNTS agrees with it on every key,
and an instruction only compiles when that lookup succeeds. -/
theorem exchange_count_lookup_table :
    (exchange_counts_dict "Short" "Conversation" = .ok 8
      ∧ exchange_counts_dict "Short" "Debate" = .ok 4
      ∧ exchange_counts_dict "Long" "Conversation" = .ok 16
      ∧ exchange_counts_dict "Long" "Debate" = .ok 8)
  ∧ (∀ (sl lm : String) (n : Nat),
      exchange_counts_dict sl lm = .ok n ↔ App.MAX_EXCHANGE_COUNTS sl lm = some n)
  ∧ (∀ (role oppo : Role) (language scenario sl pl lm : String) (starter : Bool) (t : String),
      specify_system_message role oppo language scenario sl pl lm starter = .ok t →
      ∃ cnt, exchange_counts_dict sl lm = .ok cnt) := by
  refine ⟨⟨rfl, rfl, rfl, rfl⟩, ?_, ?_⟩
  · intro sl lm n
    unfold exchange_counts_dict App.MAX_EXCHANGE_COUNTS
    split_ifs <;> simp
  · intro role oppo language scenario sl pl lm starter t h
    cases hx : exchange_counts_dict sl lm with
    | error e => simp [specify_system_message, hx] at h
    | ok cnt => exact ⟨cnt, rfl⟩

/-- Claim C3: English short-circuit.  When the session's language is
"English", translate returns the utterance prefixed with the label
"Translation: " (hence containing it verbatim) and performs zero calls to
the generation capability. -/
theorem translate_english_short_circuit (s : DualState) (tr : String → String) (x : String)
    (h : s.language = "English") :
    s.translate tr x = .ok ("Translation: " ++ x, 0) ∧ ∃ p, "Translation: " ++ x = p ++ x := by
  refine ⟨?_, "Translation: ", rfl⟩
  simp [DualState.translate, h]

/-- Claim C3 witness: the theorem instantiated at a concrete English session. -/
theorem translate_english_short_circuit_witness :
    sampleState.translate oracleT "Bonjour" = .ok ("Translation: " ++ "Bonjour", 0)
    ∧ ∃ p, "Translation: " ++ "Bonjour" = p ++ "Bonjour" :=
  translate_english_short_circuit sampleState oracleT "Bonjour" rfl

/-- Claim C4 counterexample: the orchestrator class defines no close()
operation at all — its method set is exactly __init__, step, translate,
summary and _reset_conversation_history. -/
theorem close_method_refuted : DualChatbot.methods.contains "close" = false := by decide

/-- Claim C4 amended: the orchestrator exposes no close() operation, and
step() is never rejected: on any session with the supported engine every
step() call succeeds and mutates the transcript (there is no SessionClosed
failure). -/
theorem no_close_always_steps :
    DualChatbot.methods.contains "close" = false
  ∧ (∀ (f1 f2 : List (String × String) → String → String) (tr : String → String) (s : DualState),
      s.engine = "OpenAI" →
      ∃ s1 r, DualChatbot.step f1 f2 tr s = .ok (s1, r)
        ∧ s1.conversation_history.length = s.conversation_history.length + 2) := by
  refine ⟨by decide, ?_⟩
  intro f1 f2 tr s hs
  obtain ⟨s1, r, hstep⟩ := step_ok_of_engine f1 f2 tr s hs
  have spec := step_ok_spec f1 f2 tr s s1 r hstep
  refine ⟨s1, r, hstep, ?_⟩
  rw [spec.2.2.2.2.2.2.1]
  simp

/-- Claim C5 counterexample: at a concrete session and concrete oracles, one
step() call grows the transcript by two entries, not by exactly one. -/
theorem step_single_entry_refuted :
    ∃ s1 r, DualChatbot.step oracle1 oracle2 oracleT sampleState = .ok (s1, r)
      ∧ s1.conversation_history.length ≠ sampleState.conversation_history.length + 1 := by
  obtain ⟨s1, r, h⟩ : ∃ s1 r, DualChatbot.step oracle1 oracle2 oracleT sampleState = .ok (s1, r) :=
    ⟨_, _, rfl⟩
  refine ⟨s1, r, h, ?_⟩
  have spec := step_ok_spec oracle1 oracle2 oracleT sampleState s1 r h
  rw [spec.2.2.2.2.2.2.1]
  simp

/-- Claim C5 amended: each successful step() call appends exactly two
entries to the transcript — first role1's name with role1's utterance, then
role2's name with role2's utterance; the translations are returned to the
caller but not stored in the transcript, and all previously appended
entries are left unchanged (append-only, chronological order). -/
theorem step_transcript_growth (f1 f2 : List (String × String) → String → String)
    (tr : String → String) (s s1 : DualState) (r : StepRecord)
    (h : DualChatbot.step f1 f2 tr s = .ok (s1, r)) :
    s1.conversation_history = s.conversation_history
      ++ [{ bot := s.role1.name, text := r.out1 }, { bot := s.role2.name, text := r.out2 }] :=
  (step_ok_spec f1 f2 tr s s1 r h).2.2.2.2.2.2.1

/-- Claim C5 amended witness: the theorem instantiated at a concrete session. -/
theorem step_transcript_growth_witness :
    ∃ s1 r, DualChatbot.step oracle1 oracle2 oracleT sampleState = .ok (s1, r)
      ∧ s1.conversation_history = sampleState.conversation_history
          ++ [{ bot := sampleState.role1.name, text := r.out1 },
              { bot := sampleState.role2.name, text := r.out2 }] := by
  obtain ⟨s1, r, h⟩ : ∃ s1 r, DualChatbot.step oracle1 oracle2 oracleT sampleState = .ok (s1, r) :=
    ⟨_, _, rfl⟩
  exact ⟨s1, r, h, step_transcript_growth oracle1 oracle2 oracleT sampleState s1 r h⟩

/-- Claim C6: construction validation.  Constructing the orchestrator with a
learningMode outside \x7bConversation, Debate\x7d, a proficiencyLevel outside
\x7bBeginner, Intermediate, Advanced\x7d or a sessionLength outside
\x7bShort, Long\x7d fails with a KeyError (the spec's InvalidConfiguration),
whatever the engine; with in-set values (supported engine, and role entries
carrying actions in Conversation mode) construction does not raise. -/
theorem construction_validation :
    (∀ (engine : String) (rd : RoleDict) (language scenario pl lm sl : String),
        ((lm ≠ "Conversation" ∧ lm ≠ "Debate")
          ∨ (pl ≠ "Beginner" ∧ pl ≠ "Intermediate" ∧ pl ≠ "Advanced")
          ∨ (sl ≠ "Short" ∧ sl ≠ "Long")) →
        ∃ e, DualChatbot.init engine rd language scenario pl lm sl = .error e)
  ∧ (∀ (rd : RoleDict) (language scenario pl lm sl : String),
        (lm = "Conversation" ∨ lm = "Debate") →
        (pl = "Beginner" ∨ pl = "Intermediate" ∨ pl = "Advanced") →
        (sl = "Short" ∨ sl = "Long") →
        (lm = "Conversation" → rd.role1.action.isSome ∧ rd.role2.action.isSome) →
        ∃ st rd2, DualChatbot.init "OpenAI" rd language scenario pl lm sl = .ok (st, rd2)) := by
  constructor
  · intro engine rd language scenario pl lm sl hbad
    by_cases heng : engine = "OpenAI"
    · subst heng
      obtain ⟨e, he⟩ := specify_invalid
        { rd.role1 with chatbot := some { engine := "OpenAI" } }
        { rd.role2 with chatbot := some { engine := "OpenAI" } }
        language scenario sl pl lm true hbad
      exact ⟨e, by simp [DualChatbot.init, Chatbot.create, he]⟩
    · exact ⟨.keyErrorChatModel, by simp [DualChatbot.init, Chatbot.create, heng]⟩
  · intro rd language scenario pl lm sl hlm hpl hsl hact
    obtain ⟨t1, h1⟩ := specify_valid
      { rd.role1 with chatbot := some { engine := "OpenAI" } }
      { rd.role2 with chatbot := some { engine := "OpenAI" } }
      language scenario sl pl lm true hlm hpl hsl
      (fun hc => ⟨(hact hc).1, (hact hc).2⟩)
    obtain ⟨t2, h2⟩ := specify_valid
      { rd.role2 with chatbot := some { engine := "OpenAI" } }
      { rd.role1 with chatbot := some { engine := "OpenAI" } }
      language scenario sl pl lm false hlm hpl hsl
      (fun hc => ⟨(hact hc).2, (hact hc).1⟩)
    simp [DualChatbot.init, Chatbot.create, h1, h2]

/-- Claim C7: turn-order guidance.  Every successfully compiled instruction
with isStarter=true ends with the leading clause, every one with
isStarter=false ends with the clause telling the agent to wait for the
opponent's statement, and the constructor compiles role1's instruction with
starter=true and role2's with starter=false, each with the other as
opponent. -/
theorem turn_order_guidance :
    (∀ (role oppo : Role) (language scenario sl pl lm : String) (t : String),
        specify_system_message role oppo language scenario sl pl lm true = .ok t →
        ∃ p, t = p ++ ("You are leading the " ++ lm ++ ". \n"))
  ∧ (∀ (role oppo : Role) (language scenario sl pl lm : String) (t : String),
        specify_system_message role oppo language scenario sl pl lm false = .ok t →
        ∃ p, t = p ++ ("Wait for the " ++ oppo.name ++ "\x27s statement."))
  ∧ (∀ (engine : String) (rd : RoleDict) (language scenario pl lm sl : String)
        (st : DualState) (rd2 : RoleDict),
        DualChatbot.init engine rd language scenario pl lm sl = .ok (st, rd2) →
        Except.ok st.instr1 = specify_system_message st.role1 st.role2 language scenario sl pl lm true
        ∧ Except.ok st.instr2 = specify_system_message st.role2 st.role1 language scenario sl pl lm false) := by
  refine ⟨?_, ?_, ?_⟩
  · intro role oppo language scenario sl pl lm t h
    simpa [starter_clause] using specify_ok_suffix role oppo language scenario sl pl lm true t h
  · intro role oppo language scenario sl pl lm t h
    simpa [starter_clause] using specify_ok_suffix role oppo language scenario sl pl lm false t h
  · intro engine rd language scenario pl lm sl st rd2 h
    obtain ⟨-, -, -, -, h5, h6, -, -, -, -, -, -, h13, h14⟩ :=
      init_ok_fields engine rd language scenario pl lm sl st rd2 h
    rw [h5, h6]
    exact ⟨h13, h14⟩

/-- Claim C8: instruction-builder determinism.  Two invocations of the
instruction builder with identical argument tuples (role, oppoRole,
language, scenario, sessionLength, proficiencyLevel, learningMode,
isStarter) yield identical instruction text: the builder is a pure function
of its arguments with no hidden state. -/
theorem instruction_builder_determinism
    (a b : Role × Role × String × String × String × String × String × Bool)
    (h : a = b) :
    specify_system_message a.1 a.2.1 a.2.2.1 a.2.2.2.1 a.2.2.2.2.1 a.2.2.2.2.2.1
        a.2.2.2.2.2.2.1 a.2.2.2.2.2.2.2
      = specify_system_message b.1 b.2.1 b.2.2.1 b.2.2.2.1 b.2.2.2.2.1 b.2.2.2.2.2.1
        b.2.2.2.2.2.2.1 b.2.2.2.2.2.2.2 := by
  rw [h]

/-- Claim C8 witness: the theorem instantiated at a concrete argument tuple. -/
theorem instruction_builder_determinism_witness :
    specify_system_message sampleArgs.1 sampleArgs.2.1 sampleArgs.2.2.1 sampleArgs.2.2.2.1
        sampleArgs.2.2.2.2.1 sampleArgs.2.2.2.2.2.1 sampleArgs.2.2.2.2.2.2.1 sampleArgs.2.2.2.2.2.2.2
      = specify_system_message sampleArgs.1 sampleArgs.2.1 sampleArgs.2.2.1 sampleArgs.2.2.2.1
        sampleArgs.2.2.2.2.1 sampleArgs.2.2.2.2.2.1 sampleArgs.2.2.2.2.2.2.1 sampleArgs.2.2.2.2.2.2.2 :=
  instruction_builder_determinism sampleArgs sampleArgs rfl

/-- Claim C9 (implicit): orchestrator construction mutates the
caller-supplied role_dict in place — after a successful construction both
entries of the caller's dictionary carry the newly created chatbot under
their "chatbot" key, the session's own chatbots field is that same mutated
dictionary, and whenever the dictionary had no chatbot entry before the
call it is no longer equal to what the caller passed in. -/
theorem init_mutates_role_dict (engine : String) (rd : RoleDict) (language scenario pl lm sl : String)
    (st : DualState) (rd2 : RoleDict)
    (h : DualChatbot.init engine rd language scenario pl lm sl = .ok (st, rd2)) :
    rd2.role1.chatbot = some { engine := engine } ∧ rd2.role2.chatbot = some { engine := engine }
    ∧ st.role1 = rd2.role1 ∧ st.role2 = rd2.role2
    ∧ (rd.role1.chatbot = none → rd2 ≠ rd) := by
  obtain ⟨-, -, -, -, h5, h6, h7, h8, -, -, -, -, -, -⟩ :=
    init_ok_fields engine rd language scenario pl lm sl st rd2 h
  refine ⟨h7, h8, h5, h6, ?_⟩
  intro hnone heq
  rw [heq, hnone] at h7
  exact Option.noConfusion h7

/-- Claim C9 witness: the theorem instantiated at a concrete construction
whose role dictionary has no chatbot entries. -/
theorem init_mutates_role_dict_witness :
    ∃ st rd2, DualChatbot.init "OpenAI" sampleRoleDict "English" "at a restaurant"
        "Beginner" "Conversation" "Short" = .ok (st, rd2)
      ∧ rd2.role1.chatbot = some { engine := "OpenAI" } ∧ rd2 ≠ sampleRoleDict := by
  obtain ⟨st, rd2, h⟩ : ∃ st rd2, DualChatbot.init "OpenAI" sampleRoleDict "English"
      "at a restaurant" "Beginner" "Conversation" "Short" = .ok (st, rd2) := ⟨_, _, rfl⟩
  have M := init_mutates_role_dict "OpenAI" sampleRoleDict "English" "at a restaurant"
    "Beginner" "Conversation" "Short" st rd2 h
  exact ⟨st, rd2, h, M.1, M.2.2.2.2 rfl⟩

/-- Claim C10 (implicit): the Debate-mode sentence-cap lookup can never
itself fail — no run of the instruction builder produces the KeyError of
the argument_num_dict lookup, because any proficiency level outside
Beginner/Intermediate/Advanced is rejected by the language-complexity
branch before the cap lookup executes. -/
theorem argument_num_lookup_unreachable (role oppo : Role)
    (language scenario sl pl lm : String) (starter : Bool) (e : Err)
    (h : specify_system_message role oppo language scenario sl pl lm starter = .error e) :
    e.isArgumentNumKeyError = false := by
  unfold specify_system_message at h
  cases hx : exchange_counts_dict sl lm with
  | error e1 =>
    simp only [hx, Except.error.injEq] at h
    obtain ⟨k, hk⟩ := exchange_counts_dict_error sl lm e1 hx
    subst h
    subst hk
    rfl
  | ok n =>
    simp only [hx] at h
    cases hl : lang_requirement pl with
    | error e2 =>
      simp only [hl, Except.error.injEq] at h
      have h2 := lang_requirement_error pl e2 hl
      subst h
      subst h2
      rfl
    | ok lr =>
      simp only [hl] at h
      split_ifs at h
      · cases hra : role.action with
        | none =>
          simp only [hra, Except.error.injEq] at h
          subst h
          rfl
        | some ra =>
          cases hoa : oppo.action with
          | none =>
            simp only [hra, hoa, Except.error.injEq] at h
            subst h
            rfl
          | some oa => simp [hra, hoa] at h
      · have hsome := lang_requirement_ok_argnum pl lr hl
        cases han : argument_num_dict pl with
        | none =>
          rw [han] at hsome
          simp at hsome
        | some m => simp [han] at h
      · simp only [Except.error.injEq] at h
        subst h
        rfl

/-- Claim C10 witness: the theorem instantiated at a concrete failing build
(an unsupported proficiency level in Debate mode), whose error is the
proficiency KeyError, not the cap-lookup KeyError. -/
theorem argument_num_lookup_unreachable_witness :
    Err.keyErrorProficiency.isArgumentNumKeyError = false :=
  argument_num_lookup_unreachable sampleRole1 sampleRole2 "English" "Cats are better than dogs"
    "Short" "Fluent" "Debate" true Err.keyErrorProficiency rfl
